import Mathlib

/-!
Verification of the virtual-energy-trading frontend against its
natural-language specification.  The definitions below are shallow
embeddings of the TypeScript source: numbers are modelled as rationals,
the JavaScript `Math.sin` library call and the `Date.now()` wall clock
are passed in explicitly as parameters (`msin`, `nowMs`), since the
claims under study are structural and hold for (or fail at) every value
of those inputs.
-/

namespace VET

/-- The `Position` record of `src/frontend/src/types/trading.ts`, restricted
to the fields the P&L computations read (`hour_slot`, `quantity`,
`da_price`). -/
structure Position where
  hour_slot : ℕ
  quantity : ℚ
  da_price : ℚ
deriving DecidableEq, Repr

/-- Result record of the 12-interval mock P&L computations
(`rt_prices`, `interval_pnl`, `total_pnl` of the `PnLCalculation`
interface in `types/trading.ts`). -/
structure PnLDetails where
  rt_prices : List ℚ
  interval_pnl : List ℚ
  total_pnl : ℚ
deriving DecidableEq, Repr

/-- `calculateMockRtPrice` from `src/unnamed/part_009` (pnlCalculations),
lines 56–61.  The JavaScript reads `Date.now()`; the embedding passes that
ambient value in as `nowMs` so the dependence on the wall clock is explicit:
`fiveMinInterval = Math.floor(Date.now() / 300000)`,
`baseVariation = ((hourSlot % 3) - 1) * 1.5`,
`timeVariation = (fiveMinInterval % 12) * 0.2`. -/
def calculateMockRtPrice (nowMs : ℕ) (daPrice : ℚ) (hourSlot : ℕ) : ℚ :=
  let fiveMinInterval : ℕ := nowMs / 300000
  let baseVariation : ℚ := (((hourSlot % 3 : ℕ) : ℚ) - 1) * 1.5
  let timeVariation : ℚ := ((fiveMinInterval % 12 : ℕ) : ℚ) * 0.2
  daPrice + baseVariation + timeVariation

/-- `calculateMockPositionPnL` from `src/unnamed/part_009`, lines 68–71:
the single-interval shortcut `(rtPrice - da_price) * quantity` built on
`calculateMockRtPrice` (and hence on the wall clock `nowMs`). -/
def calculateMockPositionPnL (nowMs : ℕ) (p : Position) : ℚ :=
  let rtPrice := calculateMockRtPrice nowMs p.da_price p.hour_slot
  (rtPrice - p.da_price) * p.quantity

/-- `generateMockPnLDetails` from `src/unnamed/part_009`, lines 80–92.
`msin` stands for the JavaScript `Math.sin` library function; the claims
hold for every value of it.  Faithful to the source:
`baseRtPrice = da_price + ((hour_slot % 3) - 1) * 1.5`,
`rtPrices[i] = baseRtPrice + Math.sin(i * 0.5) * 0.8 + (hour_slot % 7) * 0.3`
for `i` in `0..11`,
`interval_pnl[i] = (rtPrices[i] - da_price) * quantity`, and
`total_pnl = intervalPnL.reduce((sum, pnl) => sum + pnl, 0)`. -/
def generateMockPnLDetails (msin : ℚ → ℚ) (p : Position) : PnLDetails :=
  let baseRtPrice : ℚ := p.da_price + (((p.hour_slot % 3 : ℕ) : ℚ) - 1) * 1.5
  let rtPrices : List ℚ :=
    (List.range 12).map (fun i : ℕ =>
      baseRtPrice + msin ((i : ℚ) * 0.5) * 0.8 + ((p.hour_slot % 7 : ℕ) : ℚ) * 0.3)
  let intervalPnL : List ℚ := rtPrices.map (fun rtPrice => (rtPrice - p.da_price) * p.quantity)
  { rt_prices := rtPrices
    interval_pnl := intervalPnL
    total_pnl := intervalPnL.foldl (fun sum pnl => sum + pnl) 0 }

/-- `showPnLDetails` from
`src/frontend/src/components/PositionsTable/PositionsTable.tsx`,
lines 361–382: identical 12-interval construction, but the reported
total is `intervalPnL.reduce((sum, pnl) => sum + pnl, 0) / 12`
(the source comment reads `Average for the hour`). -/
def showPnLDetails (msin : ℚ → ℚ) (p : Position) : PnLDetails :=
  let baseRtPrice : ℚ := p.da_price + (((p.hour_slot % 3 : ℕ) : ℚ) - 1) * 1.5
  let rtPrices : List ℚ :=
    (List.range 12).map (fun i : ℕ =>
      baseRtPrice + msin ((i : ℚ) * 0.5) * 0.8 + ((p.hour_slot % 7 : ℕ) : ℚ) * 0.3)
  let intervalPnL : List ℚ := rtPrices.map (fun rtPrice => (rtPrice - p.da_price) * p.quantity)
  { rt_prices := rtPrices
    interval_pnl := intervalPnL
    total_pnl := (intervalPnL.foldl (fun sum pnl => sum + pnl) 0) / 12 }

/-- Per-position P&L of the summary table in
`PositionsTable.tsx`, lines 503–508 (also lines 474–485):
`mockRtPrice = da_price + ((hour_slot % 3) - 1) * 1.5 + (hour_slot % 7) * 0.3`,
`pnl = (mockRtPrice - da_price) * quantity`. -/
def tablePositionPnL (p : Position) : ℚ :=
  let mockRtPrice : ℚ :=
    p.da_price + (((p.hour_slot % 3 : ℕ) : ℚ) - 1) * 1.5 + ((p.hour_slot % 7 : ℕ) : ℚ) * 0.3
  (mockRtPrice - p.da_price) * p.quantity

/-- The portfolio total of `PositionsTable.tsx`, lines 503–508:
`positions.reduce((sum, position) => sum + pnl, 0)`. -/
def tableTotalPnL (positions : List Position) : ℚ :=
  positions.foldl (fun sum position => sum + tablePositionPnL position) 0

/-- The zero function, used as one concrete instantiation of the
`Math.sin` parameter when evaluating counterexamples. -/
def zsin : ℚ → ℚ := fun _ => 0

/-- Concrete position used in counterexamples: hour slot 0, buy 1 MWh at
a day-ahead price of 50 $/MWh. -/
def posA : Position := ⟨0, 1, 50⟩

/-- Concrete position used in counterexamples: hour slot 1, buy 1 MWh at
a day-ahead price of 50 $/MWh. -/
def posB : Position := ⟨1, 1, 50⟩

lemma generate_rt_prices_length (msin : ℚ → ℚ) (p : Position) :
    (generateMockPnLDetails msin p).rt_prices.length = 12 := by
  simp only [generateMockPnLDetails, List.length_map, List.length_range]

lemma getD_map_lt (f : ℚ → ℚ) (l : List ℚ) (i : ℕ) (h : i < l.length) :
    (l.map f).getD i 0 = f (l.getD i 0) := by
  induction l generalizing i with
  | nil => simp at h
  | cons a t ih =>
    cases i with
    | zero => simp
    | succ j =>
      simp only [List.map_cons, List.getD_cons_succ]
      exact ih j (by simpa using h)

/-- Claim C1: every code path that reports a total P&L for a position is
supposed to return the unweighted sum of the 12 interval P&L values.
`generateMockPnLDetails` (part_009) does sum, but `showPnLDetails` in
`PositionsTable.tsx` always reports the sum divided by 12 — an average.
At the concrete position `posA` with all sine samples zero, each of the
12 interval P&Ls is −1.5, so the documented total is −18 while the table
modal reports −3/2. -/
theorem C1_total_pnl_sum_vs_average :
    (∀ (msin : ℚ → ℚ) (p : Position),
      (showPnLDetails msin p).total_pnl = (generateMockPnLDetails msin p).total_pnl / 12) ∧
    (generateMockPnLDetails zsin posA).total_pnl = -18 ∧
    (showPnLDetails zsin posA).total_pnl = -(3 / 2) ∧
    (showPnLDetails zsin posA).total_pnl ≠ (generateMockPnLDetails zsin posA).total_pnl := by
  refine ⟨fun msin p => rfl, ?_, ?_, ?_⟩ <;>
    · simp only [generateMockPnLDetails, showPnLDetails, zsin, posA, List.range_succ,
        List.range_zero, List.map_append, List.map_cons, List.map_nil, List.nil_append,
        List.cons_append, List.foldl_append, List.foldl_cons, List.foldl_nil]
      norm_num

/-- Claim C2: each computed interval P&L equals `(rt − da) · q` exactly,
for every quantity, every day-ahead price, and every real-time price the
generator can produce (the sine term is universally quantified, so the
real-time price ranges over all rationals, negative values included, and
flows through unmodified). -/
theorem C2_interval_pnl_formula (msin : ℚ → ℚ) (p : Position) (i : ℕ) (h : i < 12) :
    (generateMockPnLDetails msin p).interval_pnl.getD i 0 =
      ((generateMockPnLDetails msin p).rt_prices.getD i 0 - p.da_price) * p.quantity ∧
    (showPnLDetails msin p).interval_pnl.getD i 0 =
      ((showPnLDetails msin p).rt_prices.getD i 0 - p.da_price) * p.quantity := by
  constructor
  · exact getD_map_lt _ _ i (by simpa [generateMockPnLDetails] using h)
  · exact getD_map_lt _ _ i (by simpa [showPnLDetails] using h)

/-- Witness for C2 at a concrete input: a sell position (quantity −10) at a
negative day-ahead price, with the sine parameter chosen so that every
real-time price is deeply negative. -/
theorem C2_interval_pnl_formula_witness :
    (0 < 12) ∧
    ((generateMockPnLDetails (fun _ => -200) ⟨0, -10, -5⟩).interval_pnl.getD 0 0 =
      ((generateMockPnLDetails (fun _ => -200) ⟨0, -10, -5⟩).rt_prices.getD 0 0 - (-5)) * (-10) ∧
    (showPnLDetails (fun _ => -200) ⟨0, -10, -5⟩).interval_pnl.getD 0 0 =
      ((showPnLDetails (fun _ => -200) ⟨0, -10, -5⟩).rt_prices.getD 0 0 - (-5)) * (-10)) :=
  ⟨by decide, C2_interval_pnl_formula (fun _ => -200) ⟨0, -10, -5⟩ 0 (by decide)⟩

/-- Claim C6 (counterexample): the single-interval shortcut and the
12-interval sum do NOT yield the same value for every position.  At `posB`
(hour 1, 1 MWh at 50 $/MWh) with all sine samples zero, the table shortcut
reports 3/10 while the 12-interval sum is 18/5, and the time-indexed
shortcut `calculateMockPositionPnL` (at wall clock 0) reports 0. -/
theorem C6_shortcut_counterexample :
    tablePositionPnL posB = 3 / 10 ∧
    (generateMockPnLDetails zsin posB).total_pnl = 18 / 5 ∧
    tablePositionPnL posB ≠ (generateMockPnLDetails zsin posB).total_pnl ∧
    calculateMockPositionPnL 0 posB ≠ (generateMockPnLDetails zsin posB).total_pnl := by
  refine ⟨?_, ?_, ?_, ?_⟩ <;>
    · simp only [generateMockPnLDetails, tablePositionPnL, calculateMockPositionPnL,
        calculateMockRtPrice, zsin, posB, List.range_succ, List.range_zero, List.map_append,
        List.map_cons, List.map_nil, List.nil_append, List.cons_append, List.foldl_append,
        List.foldl_cons, List.foldl_nil]
      norm_num

/-- Claim C6 (amended): the two coexisting "total" formulas are related but
not equal — the 12-interval sum equals twelve times the table
single-interval shortcut plus a sine correction term, so they disagree for
every position with nonzero quantity unless the sine contributions happen
to cancel the factor-of-twelve gap. -/
theorem C6_shortcut_vs_sum (msin : ℚ → ℚ) (p : Position) :
    (generateMockPnLDetails msin p).total_pnl =
      12 * tablePositionPnL p +
        0.8 * p.quantity *
          ((List.range 12).map (fun i : ℕ => msin ((i : ℚ) * 0.5))).foldl (fun a b => a + b) 0 := by
  simp only [generateMockPnLDetails, tablePositionPnL, List.range_succ, List.range_zero,
    List.map_append, List.map_cons, List.map_nil, List.nil_append, List.cons_append,
    List.foldl_append, List.foldl_cons, List.foldl_nil]
  ring

/-- Claim C7 (counterexample): `calculateMockPositionPnL` reads the ambient
wall clock, so two computations for the same position at different times
are not identical: at wall-clock 0 ms it yields −3/2 for `posA`, at
300000 ms (the next 5-minute interval) it yields −13/10. -/
theorem C7_time_dependence_counterexample :
    calculateMockPositionPnL 0 posA = -(3 / 2) ∧
    calculateMockPositionPnL 300000 posA = -(13 / 10) ∧
    calculateMockPositionPnL 0 posA ≠ calculateMockPositionPnL 300000 posA := by
  refine ⟨?_, ?_, ?_⟩ <;>
    · simp only [calculateMockPositionPnL, calculateMockRtPrice, posA]
      norm_num

/-- Claim C7 (amended): the single-interval mock P&L depends on the wall
clock exactly through the 5-minute interval index `now / 300000 % 12`: two
computations for the same position agree whenever that index agrees (in
particular anywhere inside one 5-minute interval), and the value has the
closed form `((hour%3 − 1)·1.5 + idx·0.2) · quantity`.  (The 12-interval
computation `generateMockPnLDetails` takes no clock input at all, so it is
a pure function of the position.) -/
theorem C7_pnl_clock_dependence (m1 m2 : ℕ) (p : Position)
    (h : m1 / 300000 % 12 = m2 / 300000 % 12) :
    calculateMockPositionPnL m1 p = calculateMockPositionPnL m2 p ∧
    calculateMockPositionPnL m1 p =
      ((((p.hour_slot % 3 : ℕ) : ℚ) - 1) * 1.5 + ((m1 / 300000 % 12 : ℕ) : ℚ) * 0.2) *
        p.quantity := by
  have hform : ∀ m : ℕ, calculateMockPositionPnL m p =
      ((((p.hour_slot % 3 : ℕ) : ℚ) - 1) * 1.5 + ((m / 300000 % 12 : ℕ) : ℚ) * 0.2) *
        p.quantity := by
    intro m
    simp only [calculateMockPositionPnL, calculateMockRtPrice]
    ring
  refine ⟨?_, hform m1⟩
  rw [hform m1, hform m2, h]

/-- Witness for C7 at concrete inputs: 0 ms and 299999 ms lie in the same
5-minute interval, and the computed P&L agrees there. -/
theorem C7_pnl_clock_dependence_witness :
    ((0 : ℕ) / 300000 % 12 = 299999 / 300000 % 12) ∧
    (calculateMockPositionPnL 0 posA = calculateMockPositionPnL 299999 posA ∧
    calculateMockPositionPnL 0 posA =
      ((((posA.hour_slot % 3 : ℕ) : ℚ) - 1) * 1.5 + ((0 / 300000 % 12 : ℕ) : ℚ) * 0.2) *
        posA.quantity) :=
  ⟨by decide, C7_pnl_clock_dependence 0 299999 posA (by decide)⟩

/-- The staged `Bid` record of `types/trading.ts`, restricted to the fields
`handleAddBid` and `handleBulkCopy` read and write. -/
structure Bid where
  hour_slot : ℕ
  price : ℚ
  quantity : ℚ
deriving DecidableEq, Repr

/-- Number of staged bids for a given hour slot: the `hourCounts` tally of
`handleAddBid` (`hourCounts[bid.hour_slot] = (hourCounts[bid.hour_slot] || 0) + 1`
over the combined list). -/
def hourCount (l : List Bid) (h : ℕ) : ℕ :=
  (l.filter (fun b => decide (b.hour_slot = h))).length

/-- The bid-limit check and list update of `handleAddBid` in
`src/unnamed/part_003`, lines 142–163: tally `[...bids, ...newBids]` per
hour and reject the whole add — leaving the staged list unchanged — when
any hour reaches a count with `count >= 10`; otherwise stage
`[...bids, ...newBids]`.  The returned Boolean records whether the add
succeeded (in the source, failure shows the warning
`Maximum 10 bids allowed for hour ...` and returns early). -/
def handleAddBid3 (bids newBids : List Bid) : List Bid × Bool :=
  let combined := bids ++ newBids
  if combined.any (fun b => decide (10 ≤ hourCount combined b.hour_slot)) then (bids, false)
  else (combined, true)

/-- The bid-limit check and list update of `handleAddBid` in
`src/unnamed/part_004`, lines 95–111, and identically in
`src/unnamed/part_005`, lines 81–95: same tally as part_003 but the
rejection condition is `count > 10`. -/
def handleAddBid4 (bids newBids : List Bid) : List Bid × Bool :=
  let combined := bids ++ newBids
  if combined.any (fun b => decide (10 < hourCount combined b.hour_slot)) then (bids, false)
  else (combined, true)

/-- Driver for the 15-identical-bids scenario of the spec: perform `n` successive
single-bid adds of the same bid through the part_004/part_005
`handleAddBid`, returning the final staged list and the number of
rejected adds. -/
def addRepeatedly4 (b : Bid) : ℕ → List Bid × ℕ
  | 0 => ([], 0)
  | n + 1 =>
    let prev := addRepeatedly4 b n
    let res := handleAddBid4 prev.1 [b]
    if res.2 then (res.1, prev.2) else (prev.1, prev.2 + 1)

/-- A concrete staged bid for hour slot 0: buy 10 MWh at 50 $/MWh. -/
def bidA : Bid := ⟨0, 50, 10⟩

/-- A concrete staged bid for hour slot 1: buy 10 MWh at 50 $/MWh. -/
def bidB : Bid := ⟨1, 50, 10⟩

/-- Claim C3: the 10th bid for a slot should be accepted and the 11th
rejected.  The part_004/part_005 `handleAddBid` behaves exactly so
(the `count > 10` check), but the `count >= 10` check of part_003 rejects the 10th
bid even though only 9 are staged — contradicting its own warning text
(`Maximum 10 bids allowed`) and the repository README
(`Submit up to 10 bids per hour slot`). -/
theorem C3_slot_limit_tenth_bid :
    handleAddBid3 (List.replicate 9 bidA) [bidA] = (List.replicate 9 bidA, false) ∧
    handleAddBid4 (List.replicate 9 bidA) [bidA] = (List.replicate 10 bidA, true) ∧
    handleAddBid4 (List.replicate 10 bidA) [bidA] = (List.replicate 10 bidA, false) := by
  refine ⟨by decide, by decide, by decide⟩

/-- Claim C5 (counterexample): batch submission is NOT per-bid.  With 10
bids already staged for hour 0, adding the batch `[bidA, bidB]` — where
hour 1 still has its full capacity of 10 — rejects the whole batch: the
hour-1 bid is discarded along with the over-limit hour-0 bid, instead of
`min(N, capacity)` bids being accepted. -/
theorem C5_batch_not_per_bid :
    handleAddBid4 (List.replicate 10 bidA) [bidA, bidB] = (List.replicate 10 bidA, false) ∧
    hourCount (List.replicate 10 bidA) 1 = 0 := by
  refine ⟨by decide, by decide⟩

/-- Claim C5 (amended): `handleAddBid` is all-or-nothing on the batch it is
given: if any hour of the combined list exceeds the limit the staged list
is returned unchanged and the whole batch is rejected, otherwise every bid
of the batch is staged.  The 15-identical-bids outcome of the spec (10 accepted,
5 rejected) is only realised when the 15 bids are added one at a time. -/
theorem C5_batch_all_or_nothing (bids newBids : List Bid) :
    ((∃ b ∈ bids ++ newBids, 10 < hourCount (bids ++ newBids) b.hour_slot) →
      handleAddBid4 bids newBids = (bids, false)) ∧
    ((∀ b ∈ bids ++ newBids, hourCount (bids ++ newBids) b.hour_slot ≤ 10) →
      handleAddBid4 bids newBids = (bids ++ newBids, true)) ∧
    addRepeatedly4 bidA 15 = (List.replicate 10 bidA, 5) := by
  refine ⟨?_, ?_, by decide⟩
  · intro hover
    have : (bids ++ newBids).any
        (fun b => decide (10 < hourCount (bids ++ newBids) b.hour_slot)) = true := by
      simp only [List.any_eq_true, decide_eq_true_eq]
      exact hover
    simp [handleAddBid4, this]
  · intro hok
    have : (bids ++ newBids).any
        (fun b => decide (10 < hourCount (bids ++ newBids) b.hour_slot)) = false := by
      simp only [List.any_eq_false, decide_eq_true_eq]
      intro b hb
      exact not_lt.mpr (hok b hb)
    simp [handleAddBid4, this]

/-- Witness for C5 at concrete inputs: the overflow branch with ten hour-0
bids staged plus the two-bid batch, and the success branch staging `bidB`
next to `bidA`. -/
theorem C5_batch_all_or_nothing_witness :
    ((∃ b ∈ List.replicate 10 bidA ++ [bidA, bidB],
        10 < hourCount (List.replicate 10 bidA ++ [bidA, bidB]) b.hour_slot) ∧
      handleAddBid4 (List.replicate 10 bidA) [bidA, bidB] = (List.replicate 10 bidA, false)) ∧
    ((∀ b ∈ [bidA] ++ [bidB], hourCount ([bidA] ++ [bidB]) b.hour_slot ≤ 10) ∧
      handleAddBid4 [bidA] [bidB] = ([bidA] ++ [bidB], true)) :=
  ⟨⟨by decide, (C5_batch_all_or_nothing (List.replicate 10 bidA) [bidA, bidB]).1 (by decide)⟩,
   ⟨by decide, (C5_batch_all_or_nothing [bidA] [bidB]).2.1 (by decide)⟩⟩

/-- A market-local clock reading, as the calendar day plus the time of day
(hour, minute, second, millisecond).  JavaScript `Date` / dayjs values are
instants; comparing them compares the corresponding millisecond values,
computed by `toMs` below.  `isSameDay` / `isSame(..., day)` compare the
`day` fields. -/
structure ClockTime where
  day : ℤ
  hour : ℕ
  minute : ℕ
  second : ℕ
  ms : ℤ
deriving DecidableEq, Repr

/-- The instant of a clock reading in milliseconds, the quantity JavaScript
date comparisons (`isAfter`, `isBefore`) compare. -/
def toMs (t : ClockTime) : ℤ :=
  t.day * 86400000 + (((t.hour * 60 + t.minute) * 60 + t.second : ℕ) : ℤ) * 1000 + t.ms

/-- Seconds elapsed since local midnight, ignoring milliseconds. -/
def secondsOfDay (t : ClockTime) : ℕ :=
  (t.hour * 60 + t.minute) * 60 + t.second

/-- `isPastCutoff` from `src/unnamed/part_003`, lines 36–40:
returns false when no trading day is selected or the trading day is not
the current calendar day; otherwise builds
`cutoff = setSeconds(setMinutes(setHours(now, 11), 0), 0)` — note that
date-fns `setHours`/`setMinutes`/`setSeconds` leave the millisecond field
of `now` untouched — and returns `isAfter(now, cutoff)`, i.e. a strict
instant comparison. -/
def isPastCutoff3 (tradingDay : Option ClockTime) (now : ClockTime) : Bool :=
  match tradingDay with
  | none => false
  | some td =>
    if td.day ≠ now.day then false
    else
      let cutoff : ClockTime := { now with hour := 11, minute := 0, second := 0 }
      decide (toMs cutoff < toMs now)

/-- `isPastCutoff` from `src/unnamed/part_005`, lines 35–39: returns false
when the trading day is not today (`isSame(dayjs(), day)`); otherwise
builds `cutoff = dayjs().hour(11).minute(0).second(0)` — dayjs setters
also leave the millisecond field untouched — and returns
`dayjs().isAfter(cutoff)`. -/
def isPastCutoff5 (tradingDay now : ClockTime) : Bool :=
  if tradingDay.day ≠ now.day then false
  else
    let cutoff : ClockTime := { now with hour := 11, minute := 0, second := 0 }
    decide (toMs cutoff < toMs now)

/-- Claim C4 (counterexample): a same-day submission whose market-local
clock reads exactly 11:00:00 is claimed to be rejected, but both cutoff
implementations accept it: the comparison is a strict `isAfter`, and the
cutoff instant inherits the current millisecond reading, so at
11:00:00.000 (part_003) and even at 11:00:00 plus 500 ms (part_005) the
check returns false and the submission goes through. -/
theorem C4_cutoff_boundary_counterexample :
    isPastCutoff3 (some ⟨0, 0, 0, 0, 0⟩) ⟨0, 11, 0, 0, 0⟩ = false ∧
    isPastCutoff5 ⟨0, 0, 0, 0, 0⟩ ⟨0, 11, 0, 0, 500⟩ = false := by
  refine ⟨by decide, by decide⟩

/-- Claim C4 (amended): a same-day submission is blocked exactly when the
market-local clock reads strictly after 11:00:00 at whole-second
granularity — 10:59:59 is accepted, exactly 11:00:00 (with any
millisecond reading) is still accepted, 11:00:01 and later are rejected —
and a submission for any other (e.g. future) trading day is never blocked
by the cutoff, at any time of day. -/
theorem C4_cutoff_strictly_after (td now : ClockTime) :
    isPastCutoff3 (some td) now =
      (decide (td.day = now.day) && decide (39600 < secondsOfDay now)) ∧
    isPastCutoff5 td now =
      (decide (td.day = now.day) && decide (39600 < secondsOfDay now)) ∧
    isPastCutoff3 none now = false := by
  have hiff : toMs { now with hour := 11, minute := 0, second := 0 } < toMs now ↔
      39600 < secondsOfDay now := by
    simp only [toMs, secondsOfDay]
    omega
  refine ⟨?_, ?_, rfl⟩ <;>
    · simp only [isPastCutoff3, isPastCutoff5, ne_eq, ite_not]
      by_cases hday : td.day = now.day
      · simp [hday, decide_eq_decide.mpr hiff]
      · simp [hday]

/-- `disabledDate` of the trading-day picker in `src/unnamed/part_003`,
line 285: `isBefore(date.toDate(), new Date())` — an instant comparison of
the picked calendar day (midnight) against the current moment. -/
def disabledDate3 (date now : ClockTime) : Bool :=
  decide (toMs date < toMs now)

/-- `disabledDate` of the trading-day picker in `src/unnamed/part_005`,
line 223: `date.isBefore(dayjs(), day)` with day granularity — a
calendar-day comparison. -/
def disabledDate5 (date now : ClockTime) : Bool :=
  decide (date.day < now.day)

/-- The picker cell for a calendar day, as the instant of its local
midnight (`date.toDate()` on a picker value). -/
def dateAtMidnight (day : ℤ) : ClockTime := ⟨day, 0, 0, 0, 0⟩

/-- Claim C8: only strictly-past trading days should be rejected, with
today always selectable.  The part_005 picker behaves so (day-granularity
comparison), but part_003 compares instants: at 10:00 in the morning,
the midnight instant of the current day is already before `now`, so
part_003 disables
selecting today — even though the same component implements the 11:00
same-day cutoff and its warning text tells the user to trade same-day
before 11:00. -/
theorem C8_today_disabled_in_part003 :
    disabledDate3 (dateAtMidnight 0) ⟨0, 10, 0, 0, 0⟩ = true ∧
    disabledDate5 (dateAtMidnight 0) ⟨0, 10, 0, 0, 0⟩ = false ∧
    disabledDate5 (dateAtMidnight (-1)) ⟨0, 10, 0, 0, 0⟩ = true ∧
    disabledDate5 (dateAtMidnight 1) ⟨0, 23, 59, 59, 999⟩ = false := by
  refine ⟨by decide, by decide, by decide, by decide⟩

/-- An RTM price sample as the chart sees it: a timestamp (split into its
calendar fields) plus a price.  Corresponds to `PriceData` in
`types/trading.ts`. -/
structure PriceSample where
  year : ℕ
  month : ℕ
  day : ℕ
  hour : ℕ
  minute : ℕ
  price : ℚ
deriving DecidableEq, Repr

/-- The bucket key `format(parseISO(price.timestamp), MM/dd HH:00)` used
by `chartData` in `src/frontend/src/components/PriceChart/PriceChart.tsx`,
lines 73–97: month, day and hour of the timestamp — the year is NOT part
of the format string and is dropped. -/
def hourKey (s : PriceSample) : ℕ × ℕ × ℕ := (s.month, s.day, s.hour)

/-- The absolute hour a timestamp falls within: year, month, day, hour. -/
def absHour (s : PriceSample) : ℕ × ℕ × ℕ × ℕ := (s.year, s.month, s.day, s.hour)

/-- The `hourlyRtm` map of `chartData` (PriceChart.tsx, lines 75–83): each
price of each sample is appended to the bucket keyed by its `hourKey`, in
iteration order. -/
def hourlyRtm (series : List PriceSample) : ℕ × ℕ × ℕ → List ℚ :=
  series.foldl
    (fun m s => fun q => if hourKey s = q then m q ++ [s.price] else m q)
    (fun _ => [])

/-- The hourly average of `chartData` (PriceChart.tsx, lines 86–87):
`prices.reduce((a, b) => a + b, 0) / prices.length` over the bucket
price list. -/
def rtmHourlyAvg (series : List PriceSample) (k : ℕ × ℕ × ℕ) : ℚ :=
  let prices := hourlyRtm series k
  prices.foldl (fun a b => a + b) 0 / (prices.length : ℚ)

/-- The description of `aggregateToHourly` in the spec, for comparison with the
code: the arithmetic mean of exactly the samples whose timestamp falls
within a given absolute hour. -/
def specHourlyMean (series : List PriceSample) (h : ℕ × ℕ × ℕ × ℕ) : ℚ :=
  let prices := (series.filter (fun s => decide (absHour s = h))).map (fun s => s.price)
  prices.foldl (fun a b => a + b) 0 / (prices.length : ℚ)

lemma hourlyRtm_go (series : List PriceSample) (k : ℕ × ℕ × ℕ)
    (acc : ℕ × ℕ × ℕ → List ℚ) :
    (series.foldl
      (fun m s => fun q => if hourKey s = q then m q ++ [s.price] else m q) acc) k =
      acc k ++ (series.filter (fun s => decide (hourKey s = k))).map (fun s => s.price) := by
  induction series generalizing acc with
  | nil => simp
  | cons s t ih =>
    simp only [List.foldl_cons, List.filter_cons]
    by_cases hk : hourKey s = k
    · rw [ih]
      simp [hk]
    · rw [ih]
      simp [hk]

lemma hourlyRtm_eq_filter (series : List PriceSample) (k : ℕ × ℕ × ℕ) :
    hourlyRtm series k =
      (series.filter (fun s => decide (hourKey s = k))).map (fun s => s.price) := by
  simpa using hourlyRtm_go series k (fun _ => [])

/-- A sample at 2023-05-01 10:00, price 10 $/MWh. -/
def sampleA : PriceSample := ⟨2023, 5, 1, 10, 0, 10⟩

/-- A sample at 2024-05-01 10:30 — one year after `sampleA`, same
month/day/hour — price 20 $/MWh. -/
def sampleB : PriceSample := ⟨2024, 5, 1, 10, 30, 20⟩

/-- A sample at 2023-05-01 10:05, price 20 $/MWh. -/
def sampleC : PriceSample := ⟨2023, 5, 1, 10, 5, 20⟩

/-- Claim C9 (counterexample): the chart bucket key keeps only month, day
and hour of the timestamp, so samples exactly one year apart land in the
same bucket.  For the series `[sampleA, sampleB]` (2023-05-01 10:00 and
2024-05-01 10:30) the bucket holding `sampleA` reports the average 15 of
both samples, while the arithmetic mean of the samples that actually fall
within hour 2023-05-01 10:00 is 10. -/
theorem C9_year_dropped_counterexample :
    rtmHourlyAvg [sampleA, sampleB] (5, 1, 10) = 15 ∧
    specHourlyMean [sampleA, sampleB] (2023, 5, 1, 10) = 10 ∧
    rtmHourlyAvg [sampleA, sampleB] (hourKey sampleA) ≠
      specHourlyMean [sampleA, sampleB] (absHour sampleA) := by
  refine ⟨?_, ?_, ?_⟩ <;>
    · simp only [rtmHourlyAvg, hourlyRtm_eq_filter, specHourlyMean, sampleA, sampleB,
        hourKey, absHour, List.filter_cons, List.filter_nil, List.map_cons, List.map_nil,
        List.foldl_cons, List.foldl_nil]
      norm_num

/-- Claim C9 (amended): whenever every sample of the series that shares a
given (month, day, hour) bucket key also carries the same year — true in
particular of any series spanning less than a year, such as the 24-hour
to 30-day ranges the chart requests — the value of the bucket is the
arithmetic mean of exactly the samples whose timestamp falls within that
absolute hour. -/
theorem C9_hourly_mean (series : List PriceSample) (y m d h : ℕ)
    (hyear : ∀ s ∈ series, hourKey s = (m, d, h) → s.year = y) :
    rtmHourlyAvg series (m, d, h) = specHourlyMean series (y, m, d, h) := by
  have hfilter : series.filter (fun s => decide (hourKey s = (m, d, h))) =
      series.filter (fun s => decide (absHour s = (y, m, d, h))) := by
    apply List.filter_congr
    intro s hs
    simp only [decide_eq_decide, hourKey, absHour, Prod.mk.injEq]
    constructor
    · rintro ⟨h1, h2, h3⟩
      exact ⟨hyear s hs (by simp [hourKey, h1, h2, h3]), h1, h2, h3⟩
    · rintro ⟨_, h1, h2, h3⟩
      exact ⟨h1, h2, h3⟩
  simp only [rtmHourlyAvg, specHourlyMean, hourlyRtm_eq_filter, hfilter]

/-- Witness for C9 at a concrete input: a single-year series of two samples
in hour 2023-05-01 10:00 and the chart value equals their mean. -/
theorem C9_hourly_mean_witness :
    (∀ s ∈ [sampleA, sampleC], hourKey s = (5, 1, 10) → s.year = 2023) ∧
    rtmHourlyAvg [sampleA, sampleC] (5, 1, 10) =
      specHourlyMean [sampleA, sampleC] (2023, 5, 1, 10) :=
  ⟨by decide, C9_hourly_mean [sampleA, sampleC] 2023 5 1 10 (by decide)⟩

/-- The missing-hour scan of `handleBulkCopy`
(`src/unnamed/part_004` lines 147–170 and `src/unnamed/part_005` lines
129–151): the hours 0–23 for which `bids.some(b => b.hour_slot === hour)`
is false, in increasing order. -/
def missingHours (bids : List Bid) : List ℕ :=
  (List.range 24).filter (fun hour => !(bids.any (fun b => decide (b.hour_slot = hour))))

/-- `handleBulkCopy` from `src/unnamed/part_004`, lines 147–170, identical
in `src/unnamed/part_005`, lines 129–151: on an empty staged list it
changes nothing (the source shows a warning and returns); otherwise it
takes `lastBid = bids[bids.length - 1]`, builds one copy
`{...lastBid, hour_slot: hour}` per missing hour, and stages
`[...bids, ...copiedBids]` (when no hour is missing, the list is left as
is, which coincides with appending the empty copy list). -/
def handleBulkCopy (bids : List Bid) : List Bid :=
  match bids with
  | [] => []
  | b :: rest =>
    let lastBid := (b :: rest).getLast (List.cons_ne_nil b rest)
    let copiedBids :=
      (missingHours (b :: rest)).map (fun hour => { lastBid with hour_slot := hour })
    (b :: rest) ++ copiedBids

lemma getLastD_of_ne_nil (l : List Bid) (hne : l ≠ []) (d : Bid) :
    l.getLastD d = l.getLast hne := by
  cases l with
  | nil => exact absurd rfl hne
  | cons a t => rw [List.getLastD_eq_getLast?, List.getLast?_eq_getLast _ hne, Option.getD_some]

/-- Claim C10: bulk copy is a pure frame-preserving extension — the empty
list is left unchanged; every previously staged bid survives unchanged and
in order as the prefix of the result; the appended suffix consists of
exactly one bid per hour slot 0–23 that had no staged bid, in increasing
hour order, each carrying the price and quantity of the last previously
staged bid; and afterwards every hour slot 0–23 has at least one staged
bid. -/
theorem C10_bulk_copy_frame (bids : List Bid) (hne : bids ≠ []) :
    handleBulkCopy ([] : List Bid) = [] ∧
    (handleBulkCopy bids).take bids.length = bids ∧
    (handleBulkCopy bids).drop bids.length =
      (missingHours bids).map (fun hour => { bids.getLastD ⟨0, 0, 0⟩ with hour_slot := hour }) ∧
    ∀ h, h < 24 → ∃ b ∈ handleBulkCopy bids, b.hour_slot = h := by
  obtain ⟨a, rest, rfl⟩ := List.exists_cons_of_ne_nil hne
  refine ⟨rfl, ?_, ?_, ?_⟩
  · simp only [handleBulkCopy]
    exact List.take_left _ _
  · simp only [handleBulkCopy, List.drop_left, getLastD_of_ne_nil (a :: rest) hne]
  · intro h hh
    by_cases hb : ∃ b ∈ a :: rest, b.hour_slot = h
    · obtain ⟨b, hbmem, hbh⟩ := hb
      exact ⟨b, by simp only [handleBulkCopy]; exact List.mem_append_left _ hbmem, hbh⟩
    · have hmem : h ∈ missingHours (a :: rest) := by
        simp only [missingHours, List.mem_filter, List.mem_range, Bool.not_eq_eq_eq_not,
          Bool.not_true, List.any_eq_false, decide_eq_true_eq]
        exact ⟨hh, fun b hbmem hbh => hb ⟨b, hbmem, hbh⟩⟩
      refine ⟨{ (a :: rest).getLast (List.cons_ne_nil a rest) with hour_slot := h }, ?_, rfl⟩
      simp only [handleBulkCopy]
      exact List.mem_append_right _ (List.mem_map_of_mem _ hmem)

/-- Witness for C10 at a concrete input: a single staged bid for hour 5. -/
theorem C10_bulk_copy_frame_witness :
    (([bidA] : List Bid) ≠ []) ∧
    (handleBulkCopy ([] : List Bid) = [] ∧
    (handleBulkCopy [bidA]).take 1 = [bidA] ∧
    (handleBulkCopy [bidA]).drop 1 =
      (missingHours [bidA]).map (fun hour => { ([bidA] : List Bid).getLastD ⟨0, 0, 0⟩ with hour_slot := hour }) ∧
    ∀ h, h < 24 → ∃ b ∈ handleBulkCopy [bidA], b.hour_slot = h) :=
  ⟨by simp, C10_bulk_copy_frame [bidA] (by simp)⟩

end VET
